import Mathlib

/-!
Verification of the YouTube Tools API server (main.py).

The file shallowly embeds the core logic of the server:

* the URL-to-video-id extractor (YouTubeTools.get_youtube_video_id),
  including a model of the relevant behaviour of Python's
  urllib.parse.urlparse / parse_qs and of the fallback regular expression;
* the caption fallback resolver (YouTubeTools.get_video_captions),
  the timestamp variant (YouTubeTools.get_video_timestamps) and the
  oEmbed metadata fetch (YouTubeTools.get_video_data), with the two
  network collaborators (the transcript provider and the oEmbed endpoint)
  abstracted as an explicit environment record.

Python exceptions are modelled with Except String; HTTP failures raised
through FastAPI's HTTPException are modelled with an explicit record of
status code and detail string.
-/

namespace YT

abbrev Chars := List Char

/-! ## Generic character-list helpers (used to model Python string ops) -/

/-- Split a list at the first character satisfying p; the matching
character is dropped.  Returns none when no character matches.
This models Python's str.find + slicing / str.split(c, 1). -/
def splitOnFirst (p : Char → Bool) : Chars → Option (Chars × Chars)
  | [] => none
  | c :: cs =>
    if p c then some ([], cs)
    else (splitOnFirst p cs).map (fun ab => (c :: ab.1, ab.2))

/-- Span up to (excluding) the first character satisfying p; the matching
character stays at the head of the second component. -/
def spanTo (p : Char → Bool) : Chars → Chars × Chars
  | [] => ([], [])
  | c :: cs =>
    if p c then ([], c :: cs)
    else
      let ab := spanTo p cs
      (c :: ab.1, ab.2)

/-- Prepend a character to the first piece of a split result. -/
def consHead (x : Char) : List Chars → List Chars
  | [] => [[x]]
  | h :: t => (x :: h) :: t

/-- Model of Python's str.split(sep) for a one-character separator:
splitting the empty string gives one empty piece, and every occurrence of
the separator starts a new piece. -/
def pySplit (c : Char) : Chars → List Chars
  | [] => [[]]
  | x :: xs => if x = c then [] :: pySplit c xs else consHead x (pySplit c xs)

/-- The suffix of l strictly after the last occurrence of c (l itself when
c does not occur).  Models Python's str.rpartition(c)[2]. -/
def afterLast (c : Char) (l : Chars) : Chars :=
  (l.reverse.takeWhile (fun x => x ≠ c)).reverse

/-- ASCII lower-casing of a character list, modelling str.lower() on the
ASCII hostnames this server deals with. -/
def lowerChars (l : Chars) : Chars :=
  l.map Char.toLower

/-- Boolean prefix test on character lists (models str.startswith). -/
def leadsWith : Chars → Chars → Bool
  | [], _ => true
  | _ :: _, [] => false
  | a :: as, b :: bs => a = b && leadsWith as bs

/-- Boolean contiguous-substring test, used to state facts about error
details (models Python's "needle in haystack"). -/
def hasSub (needle : Chars) : Chars → Bool
  | [] => leadsWith needle []
  | c :: cs => leadsWith needle (c :: cs) || hasSub needle cs

/-! ## Model of urllib.parse.urlparse (the parts the server uses)

The server reads parsed_url.hostname, parsed_url.path and
parsed_url.query.  The model below follows CPython's urlsplit/urlparse:
scheme split at the first colon (when the candidate scheme is
well-formed), netloc after a leading "//" up to the first of "/?#" with
the bracket-mismatch ValueError, fragment split at the first "#", query
split at the first "?", params split at the first ";" in the last path
segment, and the hostname property (strip userinfo, brackets or port,
lower-case, empty becomes None). -/

/-- Characters CPython accepts inside a URL scheme. -/
def isSchemeChar (c : Char) : Bool :=
  c.isAlphanum || c = '+' || c = '-' || c = '.'

/-- Split off the scheme as CPython's urlsplit does: the part before the
first colon counts as a scheme only when it is non-empty, starts with an
ASCII letter and consists of scheme characters; otherwise the string is
left intact. -/
def splitScheme (l : Chars) : Option Chars × Chars :=
  match splitOnFirst (fun c => c = ':') l with
  | some (pre, rest) =>
    if pre ≠ [] ∧ (pre.headD ' ').isAlpha = true ∧ pre.all isSchemeChar = true then
      (some pre, rest)
    else (none, l)
  | none => (none, l)

/-- Split off the fragment at the first "#" (CPython: url.split('#', 1)). -/
def splitHash (l : Chars) : Chars × Chars :=
  match splitOnFirst (fun c => c = '#') l with
  | some (a, b) => (a, b)
  | none => (l, [])

/-- Split off the query at the first "?" (CPython: url.split('?', 1)). -/
def splitQ (l : Chars) : Chars × Chars :=
  match splitOnFirst (fun c => c = '?') l with
  | some (a, b) => (a, b)
  | none => (l, [])

/-- Helper for the params split: find the first ";" whose suffix contains
no "/", i.e. the first ";" at or after the last "/".  This is exactly the
index CPython's _splitparams computes with url.find(';', url.rfind('/'))
(and url.find(';') when there is no slash): a ";" lies at or after the
last "/" precisely when no "/" follows it, and _splitparams picks the
first such ";". -/
def spRec : Chars → Option (Chars × Chars)
  | [] => none
  | c :: rest =>
    if c = ';' ∧ rest.contains '/' = false then some ([], rest)
    else (spRec rest).map (fun ab => (c :: ab.1, ab.2))

/-- Model of CPython's _splitparams, applied by urlparse to the path. -/
def splitParams (p : Chars) : Chars × Chars :=
  match spRec p with
  | some (a, b) => (a, b)
  | none => (p, [])

/-- Model of the hostname property of a CPython parse result: drop the
userinfo (everything up to the last "@"), then either take the bracketed
host (text after the first "[" up to "]") or strip the ":port"; the
result is lower-cased, and an empty host is None. -/
def hostnameOf (netloc : Chars) : Option Chars :=
  let hostinfo := afterLast '@' netloc
  let host :=
    match splitOnFirst (fun c => c = '[') hostinfo with
    | some (_, bracketed) => bracketed.takeWhile (fun c => c ≠ ']')
    | none => hostinfo.takeWhile (fun c => c ≠ ':')
  if host = [] then none else some (lowerChars host)

/-- The parse-result fields the server reads. -/
structure UrlParts where
  hostname : Option Chars
  path : Chars
  query : Chars
deriving DecidableEq, Repr

/-- Fragment, query and params splits applied after the netloc has been
removed, mirroring the order inside CPython's urlsplit/urlparse. -/
def mkParts (nl : Option Chars) (r : Chars) : UrlParts :=
  let r1 := (splitHash r).1
  let r2q := splitQ r1
  let path := (splitParams r2q.1).1
  { hostname := nl.bind hostnameOf, path := path, query := r2q.2 }

/-- Model of urllib.parse.urlparse for the fields the server uses.  The
only exception CPython can raise here is the bracket-mismatch ValueError
"Invalid IPv6 URL" while parsing the netloc. -/
def pyUrlparse (l : Chars) : Except String UrlParts :=
  let rest := (splitScheme l).2
  match rest with
  | '/' :: '/' :: r =>
    let nl := (spanTo (fun c => c = '/' || c = '?' || c = '#') r).1
    let r2 := (spanTo (fun c => c = '/' || c = '?' || c = '#') r).2
    if (nl.contains '[' && !(nl.contains ']')) || (nl.contains ']' && !(nl.contains '[')) then
      .error "Invalid IPv6 URL"
    else
      .ok (mkParts (some nl) r2)
  | _ => .ok (mkParts none rest)

-- sanity checks for the urlparse model (values checked against CPython)
example :
    pyUrlparse "https://www.youtube.com/watch?v=abc".data =
      .ok ⟨some "www.youtube.com".data, "/watch".data, "v=abc".data⟩ := rfl

example :
    pyUrlparse "https://youtu.be/abc".data =
      .ok ⟨some "youtu.be".data, "/abc".data, []⟩ := rfl

example : pyUrlparse "https://[abc".data = .error "Invalid IPv6 URL" := rfl

/-! ## Model of urllib.parse.parse_qs (the lookup the server performs)

The server computes parse_qs(parsed_url.query).get("v", [None])[0]: the
first value listed for the key "v", or None when the key is absent.
parse_qs splits pairs on "&", skips empty pieces, skips pairs without "="
or with an empty value (keep_blank_values is False), and percent-decodes
names and values after mapping "+" to a space. -/

/-- Value of an ASCII hex digit, as accepted by CPython's unquote. -/
def hexVal (c : Char) : Option Nat :=
  if '0' ≤ c ∧ c ≤ '9' then some (c.toNat - 48)
  else if 'a' ≤ c ∧ c ≤ 'f' then some (c.toNat - 87)
  else if 'A' ≤ c ∧ c ≤ 'F' then some (c.toNat - 55)
  else none

/-- Attempt to decode the two characters following a "%": succeeds only
when both are hex digits, yielding the coded character and the rest. -/
def pctStep : Chars → Option (Char × Chars)
  | h1 :: h2 :: rest2 =>
    match hexVal h1, hexVal h2 with
    | some a, some b => some (Char.ofNat (16 * a + b), rest2)
    | _, _ => none
  | _ => none

/-- Percent-decoding worker, structurally recursive on a fuel argument.
Every step consumes at least one character and one unit of fuel, so with
fuel at least the length of the list (as pctDecode supplies) the
fuel-exhausted branch is never taken. -/
def pctDecodeF : Nat → Chars → Chars
  | _, [] => []
  | 0, l => l
  | fuel + 1, c :: rest =>
    if c = '%' then
      match pctStep rest with
      | some dr => dr.1 :: pctDecodeF fuel dr.2
      | none => c :: pctDecodeF fuel rest
    else c :: pctDecodeF fuel rest

/-- Percent-decoding: a "%" followed by two hex digits becomes the coded
character, an ill-formed escape stays literal and scanning continues.
(CPython decodes escape bytes as UTF-8; for the ASCII escapes relevant
here this per-character model coincides with it.) -/
def pctDecode (l : Chars) : Chars :=
  pctDecodeF l.length l

/-- Model of urllib.parse.unquote_plus as used by parse_qsl: replace "+"
with a space, then percent-decode. -/
def unquotePlus (l : Chars) : Chars :=
  pctDecode (l.map (fun c => if c = '+' then ' ' else c))

/-- One name=value piece of a query string, or none when parse_qsl skips
it (empty piece, missing "=", or blank value). -/
def qsPair (piece : Chars) : Option (Chars × Chars) :=
  if piece = [] then none
  else
    match splitOnFirst (fun c => c = '=') piece with
    | none => none
    | some (n, v) => if v = [] then none else some (unquotePlus n, unquotePlus v)

/-- The ordered name/value pairs of a query string (parse_qsl). -/
def parseQsl (q : Chars) : List (Chars × Chars) :=
  (pySplit '&' q).filterMap qsPair

/-- First value bound to a key in an ordered pair list; the head of the
list parse_qs stores under that key. -/
def lookupFirst (key : Chars) : List (Chars × Chars) → Option Chars
  | [] => none
  | p :: ps => if p.1 = key then some p.2 else lookupFirst key ps

/-- Model of parse_qs(query).get("v", [None])[0]. -/
def getV (query : Chars) : Option Chars :=
  lookupFirst "v".data (parseQsl query)

example : getV "v=abc".data = some "abc".data := rfl
example : getV "a=b&v=c&v=d".data = some "c".data := rfl
example : getV "v=".data = none := rfl

/-! ## Model of the fallback regular expression

The source anchors, with re.match, the pattern

  (https?://)?(www\.)?(youtube|youtu|youtube-nocookie)\.(com|be)/
  (watch\?v=|embed/|v/|.+\?v=)?([^&=%\?]{11})

against the whole input URL and returns group 6.  The functions below
implement exactly this pattern as a backtracking matcher: each
alternative is tried in the pattern's order, optional groups try the
present alternatives before the absent one, and ".+" is greedy (longest
first, never crossing a newline).  Only group 6 is returned. -/

/-- Characters admitted by the final group "[^&=%\?]" (a negated class:
anything but the four listed characters, newline included). -/
def isG6Char (c : Char) : Bool :=
  !(c = '&' || c = '=' || c = '%' || c = '?')

/-- Match a literal, returning the remaining input. -/
def matchLit : Chars → Chars → Option Chars
  | [], s => some s
  | _ :: _, [] => none
  | a :: as, b :: bs => if a = b then matchLit as bs else none

/-- Group 6: exactly 11 characters of the negated class (the rest of the
input is unconstrained, as re.match does not anchor the end). -/
def reTake11 (s : Chars) : Option String :=
  if (s.take 11).length = 11 ∧ (s.take 11).all isG6Char = true then
    some (String.mk (s.take 11))
  else none

/-- The ".+\?v=" alternative of group 5: ".+" greedily consumes k
characters (longest first, at least one, at most the prefix before the
first newline), then the literal "?v=" and group 6 must match. -/
def reDotPlus (s : Chars) : Nat → Option String
  | 0 => none
  | k + 1 =>
    (match matchLit "?v=".data (s.drop (k + 1)) with
     | some r => reTake11 r
     | none => none) <|>
    reDotPlus s k

/-- Group 5 "(watch\?v=|embed/|v/|.+\?v=)?" followed by group 6:
alternatives in pattern order, then the empty (absent) option. -/
def reG5 (s : Chars) : Option String :=
  ((matchLit "watch?v=".data s).bind reTake11) <|>
  ((matchLit "embed/".data s).bind reTake11) <|>
  ((matchLit "v/".data s).bind reTake11) <|>
  reDotPlus s (s.takeWhile (fun c => c ≠ '\n')).length <|>
  reTake11 s

/-- The literal "\.(com|be)/" after the host-name group. -/
def reTld (s : Chars) : Option String :=
  ((matchLit ".com/".data s).bind reG5) <|> ((matchLit ".be/".data s).bind reG5)

/-- Group 3 "(youtube|youtu|youtube-nocookie)", alternatives in order. -/
def reG3 (s : Chars) : Option String :=
  ((matchLit "youtube".data s).bind reTld) <|>
  ((matchLit "youtu".data s).bind reTld) <|>
  ((matchLit "youtube-nocookie".data s).bind reTld)

/-- Group 2 "(www\.)?". -/
def reG2 (s : Chars) : Option String :=
  ((matchLit "www.".data s).bind reG3) <|> reG3 s

/-- Group 1 "(https?://)?": "https?" is greedy, so "https://" is tried
before "http://", then the absent option. -/
def reG1 (s : Chars) : Option String :=
  ((matchLit "https://".data s).bind reG2) <|>
  ((matchLit "http://".data s).bind reG2) <|>
  reG2 s

/-- Group 6 of re.match of the fallback pattern against the URL. -/
def reMatch (url : Chars) : Option String := reG1 url

-- sanity checks against CPython's re on the same pattern
example : reMatch "https://example.com/watch?v=abc".data = none := rfl
example : reMatch "youtube.com/watch?v=dQw4w9WgXcQ".data = some "dQw4w9WgXcQ" := rfl
example : reMatch "https://youtu.be/abc".data = none := rfl
example : reMatch "youtube.com/watch?v=aaaaa.aaaaa".data = some "aaaaa.aaaaa" := rfl
example :
    reMatch "https://youtube-nocookie.com/embed/abcdefghijk".data = some "abcdefghijk" := rfl
example : reMatch "https://youtu.be/abcdefghijklmnop".data = some "abcdefghijk" := rfl

/-! ## The identifier extractor (YouTubeTools.get_youtube_video_id) -/

/-- Body of get_youtube_video_id before its try/except: the urlparse
branches for the youtu.be and youtube.com hosts, then the regex
fallback.  Errors are the Python exceptions the body can raise (the
urlparse ValueError, or an IndexError from the path split). -/
def getYoutubeVideoIdBody (url : String) : Except String (Option String) :=
  match pyUrlparse url.data with
  | .error e => .error e
  | .ok parts =>
    match parts.hostname with
    | some h =>
      if h = "youtu.be".data then .ok (some (String.mk (parts.path.drop 1)))
      else if h = "www.youtube.com".data ∨ h = "youtube.com".data then
        if parts.path = "/watch".data then
          .ok ((getV parts.query).map String.mk)
        else if leadsWith "/embed/".data parts.path then
          match (pySplit '/' parts.path)[2]? with
          | some seg => .ok (some (String.mk seg))
          | none => .error "list index out of range"
        else if leadsWith "/v/".data parts.path then
          match (pySplit '/' parts.path)[2]? with
          | some seg => .ok (some (String.mk seg))
          | none => .error "list index out of range"
        else .ok (reMatch url.data)
      else .ok (reMatch url.data)
    | none => .ok (reMatch url.data)

/-- YouTubeTools.get_youtube_video_id: the body wrapped in the
try/except that turns any exception into None. -/
def get_youtube_video_id (url : String) : Option String :=
  match getYoutubeVideoIdBody url with
  | .ok v => v
  | .error _ => none

example : get_youtube_video_id "https://youtu.be/abc" = some "abc" := rfl
example : get_youtube_video_id "https://www.youtube.com/watch?v=dQw4w9WgXcQ" = some "dQw4w9WgXcQ" := rfl
example : get_youtube_video_id "https://www.youtube.com/embed/dQw4w9WgXcQ" = some "dQw4w9WgXcQ" := rfl
example : get_youtube_video_id "https://youtu.be/" = some "" := rfl
example : get_youtube_video_id "https://www.youtube.com/embed/" = some "" := rfl
example : get_youtube_video_id "https://example.com/watch?v=abc" = none := rfl
example : get_youtube_video_id "https://[abc" = none := rfl

end YT

namespace YT
example : unquotePlus "%41bc".data = "Abc".data := rfl
example : unquotePlus "%4".data = "%4".data := rfl
example : unquotePlus "%%41".data = "%A".data := rfl
example : unquotePlus "a+b".data = "a b".data := rfl
example : unquotePlus "%zz".data = "%zz".data := rfl
example : getV "v=%41+b&x".data = some "A b".data := rfl
end YT

namespace YT

/-! ## HTTP failures and the external collaborators

FastAPI's HTTPException is a record of status code and detail string.
Notably it subclasses Exception, so the server's own
"except Exception as e" clauses catch it; where that happens below, the
wrapped detail string f"...: {str(e)}" uses Starlette's str() form
"{status_code}: {detail}". -/

deriving instance DecidableEq for Except

structure HTTPExc where
  status : Nat
  detail : String
deriving DecidableEq, Repr

/-- One transcript cue as returned by the transcript provider: text plus
numeric start offset and duration (JSON numbers, modelled as rationals).
The server reads caption["start"], caption["duration"], caption["text"]. -/
structure Cue where
  text : String
  start : ℚ
  duration : ℚ
deriving DecidableEq, Repr

/-- The oEmbed JSON record; every field is independently optional because
the upstream source may omit keys (dict.get returns None for those). -/
structure Oembed where
  title : Option String := none
  author_name : Option String := none
  author_url : Option String := none
  type : Option String := none
  height : Option Int := none
  width : Option Int := none
  version : Option String := none
  provider_name : Option String := none
  provider_url : Option String := none
  thumbnail_url : Option String := none
deriving DecidableEq, Repr

/-- The dict returned by get_video_data.  The clean_data dict always
carries all ten keys (possibly with None values); the degraded dict
carries only title, author_name and thumbnail_url.  Both are modelled
with the same record, an absent key being none. -/
structure VideoData where
  title : Option String := none
  author_name : Option String := none
  author_url : Option String := none
  type : Option String := none
  height : Option Int := none
  width : Option Int := none
  version : Option String := none
  provider_name : Option String := none
  provider_url : Option String := none
  thumbnail_url : Option String := none
deriving DecidableEq, Repr

/-- The two network collaborators, abstracted as pure oracles.  An
Except.error models the call raising an exception whose str() is the
carried message.
  * oembed: urlopen + json.loads of the constructed oEmbed URL;
  * get_transcript: YouTubeTranscriptApi.get_transcript, with none for
    the call that passes no languages argument;
  * list_transcripts: YouTubeTranscriptApi.list_transcripts, reduced to
    the language codes the server extracts from it. -/
structure Env where
  oembed : String → Except String Oembed
  get_transcript : String → Option (List String) → Except String (List Cue)
  list_transcripts : String → Except String (List String)

/-! ## The oEmbed request URL (urlencode / quote_plus8) -/

/-- UTF-8 bytes of a character (as natural numbers below 256). -/
def utf8Bytes (c : Char) : List Nat :=
  let n := c.toNat
  if n < 0x80 then [n]
  else if n < 0x800 then
    [0xC0 ||| (n >>> 6), 0x80 ||| (n &&& 0x3F)]
  else if n < 0x10000 then
    [0xE0 ||| (n >>> 12), 0x80 ||| ((n >>> 6) &&& 0x3F), 0x80 ||| (n &&& 0x3F)]
  else
    [0xF0 ||| (n >>> 18), 0x80 ||| ((n >>> 12) &&& 0x3F),
     0x80 ||| ((n >>> 6) &&& 0x3F), 0x80 ||| (n &&& 0x3F)]

/-- Bytes urllib.parse.quote never escapes (letters, digits, "_.-~"). -/
def isAlwaysSafeByte (b : Nat) : Bool :=
  (48 ≤ b && b ≤ 57) || (65 ≤ b && b ≤ 90) || (97 ≤ b && b ≤ 122) ||
  b = 95 || b = 46 || b = 45 || b = 126

/-- Upper-case hex digit, as quote produces. -/
def hexDigitUpper (n : Nat) : Char :=
  if n < 10 then Char.ofNat (48 + n) else Char.ofNat (55 + n)

/-- Encoding of one byte under quote_plus with an empty safe set. -/
def quoteByte (b : Nat) : Chars :=
  if isAlwaysSafeByte b then [Char.ofNat b]
  else if b = 32 then ['+']
  else ['%', hexDigitUpper (b / 16), hexDigitUpper (b % 16)]

/-- Model of urllib.parse.quote_plus (the quote_via of urlencode). -/
def quotePlus (s : String) : String :=
  String.mk (((s.data.map utf8Bytes).flatten.map quoteByte).flatten)

/-- Model of urllib.parse.urlencode on an ordered list of pairs. -/
def pyUrlencode (params : List (String × String)) : String :=
  String.intercalate "&" (params.map (fun p => quotePlus p.1 ++ "=" ++ quotePlus p.2))

/-- The full oEmbed request URL the server constructs for a video id. -/
def oembedFullUrl (video_id : String) : String :=
  "https://www.youtube.com/oembed" ++ "?" ++
    pyUrlencode [("format", "json"), ("url", "https://www.youtube.com/watch?v=" ++ video_id)]

example :
    oembedFullUrl "dQw4w9WgXcQ" =
      "https://www.youtube.com/oembed?format=json&url=https%3A%2F%2Fwww.youtube.com%2Fwatch%3Fv%3DdQw4w9WgXcQ" := by decide

/-! ## Shared id-extraction block of the three endpoint methods

All three methods run the same code:

  try:
      video_id = YouTubeTools.get_youtube_video_id(url)
      if not video_id:
          raise HTTPException(status_code=400, detail="Invalid YouTube URL")
  except Exception as e:
      raise HTTPException(status_code=400,
                          detail=f"Error getting video ID from URL: {str(e)}")

HTTPException subclasses Exception, so the inner 400 is caught and
re-wrapped (status stays 400; str() of the inner exception is
"400: Invalid YouTube URL").  get_youtube_video_id itself never raises,
so nothing else reaches the except clause. -/
def wrapIdExtraction (url : String) : Except HTTPExc String :=
  match get_youtube_video_id url with
  | some v =>
    if v = "" then .error ⟨400, "Error getting video ID from URL: 400: Invalid YouTube URL"⟩
    else .ok v
  | none => .error ⟨400, "Error getting video ID from URL: 400: Invalid YouTube URL"⟩

/-! ## YouTubeTools.get_video_data -/

/-- The degraded record substituted on any oEmbed failure. -/
def degradedData (video_id : String) : VideoData :=
  { title := some ("YouTube Video (" ++ video_id ++ ")")
    author_name := some "Unknown"
    thumbnail_url := some ("https://img.youtube.com/vi/" ++ video_id ++ "/0.jpg") }

/-- YouTubeTools.get_video_data: empty-URL guard, id extraction, then the
oEmbed fetch whose every failure (urlopen error, non-2xx HTTPError,
json.loads failure) is caught and replaced by the degraded record.  The
outer try/except returns the same degraded record and is unreachable
because the inner except already catches every exception of the fetch. -/
def get_video_data (env : Env) (url : String) : Except HTTPExc VideoData :=
  if url = "" then .error ⟨400, "No URL provided"⟩
  else
    match wrapIdExtraction url with
    | .error e => .error e
    | .ok video_id =>
      match env.oembed (oembedFullUrl video_id) with
      | .ok d =>
        .ok { title := d.title, author_name := d.author_name, author_url := d.author_url
              type := d.type, height := d.height, width := d.width, version := d.version
              provider_name := d.provider_name, provider_url := d.provider_url
              thumbnail_url := d.thumbnail_url }
      | .error _ => .ok (degradedData video_id)

/-! ## Timestamp formatting -/

/-- Python's int() on a float/number: truncation toward zero. -/
def pyInt (q : ℚ) : Int :=
  Int.tdiv q.num q.den

/-- Python's format spec "{:02d}": zero-pad the decimal form to width 2. -/
def pad2 (n : Int) : String :=
  if 0 ≤ n ∧ n < 10 then "0" ++ toString n else toString n

/-- The "{minutes}:{seconds:02d}" string for a cue start offset, with
divmod(start, 60) (Python divmod on ints: floor division and remainder
with the divisor's sign). -/
def fmtTs (q : ℚ) : String :=
  let n := pyInt q
  toString (Int.fdiv n 60) ++ ":" ++ pad2 (Int.fmod n 60)

/-- One formatted caption of get_video_captions. -/
structure FormattedCaption where
  text : String
  timestamp : String
  start : Int
  duration : ℚ
deriving DecidableEq, Repr

/-- The per-cue normalization of get_video_captions. -/
def formatCue (c : Cue) : FormattedCaption :=
  { text := c.text, timestamp := fmtTs c.start, start := pyInt c.start, duration := c.duration }

/-- The value of the /video-captions endpoint on success. -/
structure CaptionsResult where
  title : Option String
  subtitles : List FormattedCaption
deriving DecidableEq, Repr

/-! ## YouTubeTools.get_video_captions -/

/-- The languages argument of the first transcript request:
"if languages and len(languages) > 0" passes the list through, otherwise
the call is made with no languages argument. -/
def langArg (languages : Option (List String)) : Option (List String) :=
  match languages with
  | some ls => if ls ≠ [] then some ls else none
  | none => none

/-- The caption fallback chain of get_video_captions (lines 183-231):
first the requested-or-default request; on exception, one inner try that
lists the available language codes and, when the list is non-empty,
retries with its first entry; on exception anywhere inside that inner try
(listing or retrying), a final retry with language "en".  When the inner
try succeeds with an empty language list, no further attempt is made.
Returns the captions obtained (none when every attempt failed or the
chain fell through) together with the accumulated error_messages. -/
def captionAttempts (env : Env) (video_id : String) (languages : Option (List String)) :
    Option (List Cue) × List String :=
  match env.get_transcript video_id (langArg languages) with
  | .ok cs => (some cs, [])
  | .error e =>
    let m1 := "Failed to get captions: " ++ e
    let inner : Except String (Option (List Cue)) :=
      match env.list_transcripts video_id with
      | .error e2 => .error e2
      | .ok available =>
        match available with
        | first :: _ =>
          match env.get_transcript video_id (some [first]) with
          | .ok cs => .ok (some cs)
          | .error e2 => .error e2
        | [] => .ok none
    match inner with
    | .ok co => (co, [m1])
    | .error e2 =>
      let m2 := "Failed to list available languages: " ++ e2
      match env.get_transcript video_id (some ["en"]) with
      | .ok cs => (some cs, [m1, m2])
      | .error e3 => (none, [m1, m2, "Failed to get captions with 'en' language: " ++ e3])

/-- Model of "; ".join(error_messages). -/
def joinSemicolon : List String → String
  | [] => ""
  | [m] => m
  | m :: rest => m ++ "; " ++ joinSemicolon rest

/-- The 404 detail string of get_video_captions. -/
def notFoundDetail (msgs : List String) : String :=
  "No captions found for this video" ++
    (if msgs ≠ [] then ". Errors: " ++ joinSemicolon msgs else "")

/-- YouTubeTools.get_video_captions: empty-URL guard, id extraction,
title via get_video_data (which never raises once the id extracted), the
fallback chain, then either the formatted captions or the 404.  The
"if captions:" truthiness check sends both a missing and an empty
transcript to the 404 branch.  The outer except-HTTPException re-raises
unchanged; the catch-all 500 branch is unreachable because no other
exception escapes the chain. -/
def get_video_captions (env : Env) (url : String) (languages : Option (List String)) :
    Except HTTPExc CaptionsResult :=
  if url = "" then .error ⟨400, "No URL provided"⟩
  else
    match wrapIdExtraction url with
    | .error e => .error e
    | .ok video_id =>
      match get_video_data env url with
      | .error e => .error e
      | .ok vd =>
        -- video_data.get("title", f"YouTube Video ({video_id})"): the key
        -- is present in both the clean and the degraded dict, so the
        -- default is dead code and the (possibly None) value is used.
        let title := vd.title
        match captionAttempts env video_id languages with
        | (some (c :: cs), _) =>
          .ok { title := title, subtitles := (c :: cs).map formatCue }
        | (_, msgs) => .error ⟨404, notFoundDetail msgs⟩

/-! ## YouTubeTools.get_video_timestamps -/

/-- One line of the timestamp list: "M:SS - text". -/
def fmtTsLine (c : Cue) : String :=
  fmtTs c.start ++ " - " ++ c.text

/-- YouTubeTools.get_video_timestamps: empty-URL guard, id extraction,
then a two-attempt chain (requested-or-default, then forced "en"; no
enumeration of available languages).  A failure of the "en" attempt
propagates to the outer except, producing the 500 whose detail carries
only that last error.  A successful (possibly empty) transcript is
rendered as "M:SS - text" lines. -/
def get_video_timestamps (env : Env) (url : String) (languages : Option (List String)) :
    Except HTTPExc (List String) :=
  if url = "" then .error ⟨400, "No URL provided"⟩
  else
    match wrapIdExtraction url with
    | .error e => .error e
    | .ok video_id =>
      let attempt : Except String (List Cue) :=
        match env.get_transcript video_id (langArg languages) with
        | .ok cs => .ok cs
        | .error _ => env.get_transcript video_id (some ["en"])
      match attempt with
      | .ok cs => .ok (cs.map fmtTsLine)
      | .error e => .error ⟨500, "Error generating timestamps: " ++ e⟩

-- formatting sanity checks
example : fmtTs 3661 = "61:01" := rfl
example : fmtTs 59 = "0:59" := rfl
example : fmtTs (mkRat 25 2) = "0:12" := by decide
example : fmtTsLine ⟨"hi", 65, 2⟩ = "1:05 - hi" := rfl

end YT

namespace YT

/-! ## Claim theorems -/

/-- C9: extraction of the non-YouTube URL "https://example.com/watch?v=abc"
yields None: the host example.com matches none of youtu.be / youtube.com /
www.youtube.com, and the fallback regular expression does not match. -/
theorem c9_non_youtube_url_yields_none :
    get_youtube_video_id "https://example.com/watch?v=abc" = none := by decide

/-- C10: get_youtube_video_id returns the empty string (not None) for
"https://youtu.be/" and "https://www.youtube.com/embed/", and each of the
three endpoint operations treats this falsy value exactly like None: for
every environment and language list it fails with status 400 and the
detail naming the invalid YouTube URL, before any outbound call is made
(the result does not depend on the environment). -/
theorem c10_empty_id_is_falsy :
    get_youtube_video_id "https://youtu.be/" = some "" ∧
    get_youtube_video_id "https://www.youtube.com/embed/" = some "" ∧
    ∀ (env : Env) (langs : Option (List String)),
      (get_video_data env "https://youtu.be/" =
          .error ⟨400, "Error getting video ID from URL: 400: Invalid YouTube URL"⟩ ∧
        get_video_captions env "https://youtu.be/" langs =
          .error ⟨400, "Error getting video ID from URL: 400: Invalid YouTube URL"⟩ ∧
        get_video_timestamps env "https://youtu.be/" langs =
          .error ⟨400, "Error getting video ID from URL: 400: Invalid YouTube URL"⟩) ∧
      (get_video_data env "https://www.youtube.com/embed/" =
          .error ⟨400, "Error getting video ID from URL: 400: Invalid YouTube URL"⟩ ∧
        get_video_captions env "https://www.youtube.com/embed/" langs =
          .error ⟨400, "Error getting video ID from URL: 400: Invalid YouTube URL"⟩ ∧
        get_video_timestamps env "https://www.youtube.com/embed/" langs =
          .error ⟨400, "Error getting video ID from URL: 400: Invalid YouTube URL"⟩) := by
  refine ⟨by decide, by decide, ?_⟩
  intro env langs
  exact ⟨⟨rfl, rfl, rfl⟩, ⟨rfl, rfl, rfl⟩⟩

end YT

namespace YT

/-- C7: get_youtube_video_id never raises: whenever its body raises an
exception (here: whenever the modelled body returns an error), the
try/except catches it and the function returns None. -/
theorem c7_extractor_never_raises (url : String) (e : String)
    (h : getYoutubeVideoIdBody url = .error e) :
    get_youtube_video_id url = none := by
  unfold get_youtube_video_id
  rw [h]

/-- Witness for C7 at a concrete input: parsing "https://[abc" raises the
Invalid IPv6 URL ValueError inside urlparse, and the function returns
None. -/
theorem c7_extractor_never_raises_witness :
    getYoutubeVideoIdBody "https://[abc" = .error "Invalid IPv6 URL" ∧
    get_youtube_video_id "https://[abc" = none :=
  ⟨by decide, c7_extractor_never_raises "https://[abc" "Invalid IPv6 URL" (by decide)⟩

/-- C2 counterexample: get_youtube_video_id returns "abc" (3 characters,
not 11) for "https://youtu.be/abc", so not every non-None return value is
an 11-character identifier. -/
theorem c2_counterexample :
    get_youtube_video_id "https://youtu.be/abc" = some "abc" ∧ ¬ ("abc".length = 11) := by
  decide

/-- Every successful group-6 capture has exactly 11 characters, each
outside the excluded class of the regular expression. -/
theorem reTake11_spec {s : Chars} {g : String} (h : reTake11 s = some g) :
    g.length = 11 ∧ ∀ c ∈ g.data, isG6Char c = true := by
  unfold reTake11 at h
  split at h
  · cases h
    rename_i hc
    refine ⟨hc.1, ?_⟩
    intro c hcmem
    exact List.all_eq_true.mp hc.2 c hcmem
  · cases h

theorem reDotPlus_spec {s : Chars} {g : String} :
    ∀ k, reDotPlus s k = some g → g.length = 11 ∧ ∀ c ∈ g.data, isG6Char c = true := by
  intro k
  induction k with
  | zero => intro h; cases h
  | succ n ih =>
    intro h
    rw [reDotPlus, Option.orElse_eq_some] at h
    rcases h with h | ⟨-, h⟩
    · revert h
      split
      · exact fun h => reTake11_spec h
      · intro h; cases h
    · exact ih h

theorem reG5_spec {s : Chars} {g : String} (h : reG5 s = some g) :
    g.length = 11 ∧ ∀ c ∈ g.data, isG6Char c = true := by
  unfold reG5 at h
  rw [Option.orElse_eq_some] at h
  rcases h with h | ⟨-, h⟩
  · rw [Option.bind_eq_some] at h
    exact reTake11_spec h.choose_spec.2
  rw [Option.orElse_eq_some] at h
  rcases h with h | ⟨-, h⟩
  · rw [Option.bind_eq_some] at h
    exact reTake11_spec h.choose_spec.2
  rw [Option.orElse_eq_some] at h
  rcases h with h | ⟨-, h⟩
  · rw [Option.bind_eq_some] at h
    exact reTake11_spec h.choose_spec.2
  rw [Option.orElse_eq_some] at h
  rcases h with h | ⟨-, h⟩
  · exact reDotPlus_spec _ h
  · exact reTake11_spec h

theorem reTld_spec {s : Chars} {g : String} (h : reTld s = some g) :
    g.length = 11 ∧ ∀ c ∈ g.data, isG6Char c = true := by
  unfold reTld at h
  rw [Option.orElse_eq_some] at h
  rcases h with h | ⟨-, h⟩ <;>
    · rw [Option.bind_eq_some] at h
      exact reG5_spec h.choose_spec.2

theorem reG3_spec {s : Chars} {g : String} (h : reG3 s = some g) :
    g.length = 11 ∧ ∀ c ∈ g.data, isG6Char c = true := by
  unfold reG3 at h
  rw [Option.orElse_eq_some] at h
  rcases h with h | ⟨-, h⟩
  · rw [Option.bind_eq_some] at h
    exact reTld_spec h.choose_spec.2
  rw [Option.orElse_eq_some] at h
  rcases h with h | ⟨-, h⟩ <;>
    · rw [Option.bind_eq_some] at h
      exact reTld_spec h.choose_spec.2

theorem reG2_spec {s : Chars} {g : String} (h : reG2 s = some g) :
    g.length = 11 ∧ ∀ c ∈ g.data, isG6Char c = true := by
  unfold reG2 at h
  rw [Option.orElse_eq_some] at h
  rcases h with h | ⟨-, h⟩
  · rw [Option.bind_eq_some] at h
    exact reG3_spec h.choose_spec.2
  · exact reG3_spec h

/-- C2 amended: the 11-character guarantee holds only for the regex
fallback branch, and for the regular expression's own character class
(anything but the four characters '&', '=', '%', '?', a superset of the
YouTube identifier alphabet): every value the fallback regular expression
produces has exactly 11 such characters, while the urlparse branches
(youtu.be path, watch?v=, /embed/, /v/) return their substring with no
length or alphabet validation. -/
theorem c2_amended_regex_values_are_11_chars (l : Chars) (g : String)
    (h : reMatch l = some g) :
    g.length = 11 ∧ ∀ c ∈ g.data, isG6Char c = true := by
  unfold reMatch reG1 at h
  rw [Option.orElse_eq_some] at h
  rcases h with h | ⟨-, h⟩
  · rw [Option.bind_eq_some] at h
    exact reG2_spec h.choose_spec.2
  rw [Option.orElse_eq_some] at h
  rcases h with h | ⟨-, h⟩
  · rw [Option.bind_eq_some] at h
    exact reG2_spec h.choose_spec.2
  · exact reG2_spec h

/-- Witness for the amended C2 at a concrete input that reaches the regex
fallback (no scheme, so urlparse yields no hostname). -/
theorem c2_amended_regex_values_are_11_chars_witness :
    reMatch "youtube.com/watch?v=dQw4w9WgXcQ".data = some "dQw4w9WgXcQ" ∧
    ("dQw4w9WgXcQ" : String).length = 11 ∧
    ∀ c ∈ ("dQw4w9WgXcQ" : String).data, isG6Char c = true :=
  ⟨by decide,
   c2_amended_regex_values_are_11_chars "youtube.com/watch?v=dQw4w9WgXcQ".data
     "dQw4w9WgXcQ" (by decide)⟩

end YT

namespace YT

/-- Environment for the C1 witnesses: the initial (default-language)
transcript request fails, the enumeration succeeds with an empty list,
and a request forcing "en" would succeed with a non-empty transcript. -/
def envC1 : Env :=
  { oembed := fun _ => .error "network unreachable"
    get_transcript := fun _ langs =>
      if langs = some ["en"] then .ok [⟨"hello", 1, 2⟩] else .error "no default transcript"
    list_transcripts := fun _ => .ok [] }

/-- C1 counterexample: with no preferred languages, a failing initial
request and an empty enumeration result, the code never makes the final
'en' attempt — although that attempt would return a non-empty transcript
— and instead fails with 404 after only the one recorded attempt.  The
claim predicts the 'en' retry (and hence success) when "the list is
empty". -/
theorem c1_counterexample :
    envC1.get_transcript "dQw4w9WgXcQ" (some ["en"]) = .ok [⟨"hello", 1, 2⟩] ∧
    get_video_captions envC1 "https://youtu.be/dQw4w9WgXcQ" none =
      .error ⟨404,
        "No captions found for this video. Errors: Failed to get captions: no default transcript"⟩ := by
  constructor
  · rfl
  · rfl

/-- C1 amended: the fallback chain of get_video_captions works as the
claim states except in two places: (1) the forced-'en' retry happens only
when the enumeration step or the retry with the first listed language
raises — when the enumeration succeeds with an empty list, no 'en'
attempt is made and the chain falls through to the failure terminal;
(2) a successful attempt stops the chain even when its transcript is
empty.  Clause by clause: a successful initial request wins immediately;
on its failure the available languages are listed and a non-empty list
leads to a retry with its first entry; an empty list ends the chain with
no 'en' attempt; a listing failure leads to the 'en' retry; a failure of
the first-entry retry also leads to the 'en' retry. -/
theorem c1_amended_fallback_chain (env : Env) (id : String) (langs : Option (List String)) :
    (∀ cs, env.get_transcript id (langArg langs) = .ok cs →
      captionAttempts env id langs = (some cs, [])) ∧
    (∀ e1 first rest cs, env.get_transcript id (langArg langs) = .error e1 →
      env.list_transcripts id = .ok (first :: rest) →
      env.get_transcript id (some [first]) = .ok cs →
      captionAttempts env id langs = (some cs, ["Failed to get captions: " ++ e1])) ∧
    (∀ e1, env.get_transcript id (langArg langs) = .error e1 →
      env.list_transcripts id = .ok [] →
      captionAttempts env id langs = (none, ["Failed to get captions: " ++ e1])) ∧
    (∀ e1 e2 cs, env.get_transcript id (langArg langs) = .error e1 →
      env.list_transcripts id = .error e2 →
      env.get_transcript id (some ["en"]) = .ok cs →
      captionAttempts env id langs =
        (some cs, ["Failed to get captions: " ++ e1,
                   "Failed to list available languages: " ++ e2])) ∧
    (∀ e1 first rest e2 cs, env.get_transcript id (langArg langs) = .error e1 →
      env.list_transcripts id = .ok (first :: rest) →
      env.get_transcript id (some [first]) = .error e2 →
      env.get_transcript id (some ["en"]) = .ok cs →
      captionAttempts env id langs =
        (some cs, ["Failed to get captions: " ++ e1,
                   "Failed to list available languages: " ++ e2])) := by
  refine ⟨?_, ?_, ?_, ?_, ?_⟩
  · intro cs h1
    simp only [captionAttempts, h1]
  · intro e1 first rest cs h1 h2 h3
    simp only [captionAttempts, h1, h2, h3]
  · intro e1 h1 h2
    simp only [captionAttempts, h1, h2]
  · intro e1 e2 cs h1 h2 h3
    simp only [captionAttempts, h1, h2, h3]
  · intro e1 first rest e2 cs h1 h2 h3 h4
    simp only [captionAttempts, h1, h2, h3, h4]

/-- Witness for the amended C1, instantiating the empty-enumeration
clause at a concrete environment. -/
theorem c1_amended_fallback_chain_witness :
    captionAttempts envC1 "dQw4w9WgXcQ" none =
      (none, ["Failed to get captions: no default transcript"]) :=
  (c1_amended_fallback_chain envC1 "dQw4w9WgXcQ" none).2.2.1 "no default transcript"
    (by decide) (by decide)

end YT

namespace YT

/-- Once an id has been extracted, get_video_data cannot fail: both the
clean and the degraded branch return a value. -/
theorem get_video_data_ok (env : Env) (url id : String)
    (hne : ¬ url = "") (h : wrapIdExtraction url = .ok id) :
    ∃ vd, get_video_data env url = .ok vd := by
  cases henv : env.oembed (oembedFullUrl id) with
  | ok d =>
    refine ⟨⟨d.title, d.author_name, d.author_url, d.type, d.height, d.width, d.version,
      d.provider_name, d.provider_url, d.thumbnail_url⟩, ?_⟩
    unfold get_video_data
    rw [if_neg hne, h]
    simp only [henv]
  | error e =>
    refine ⟨degradedData id, ?_⟩
    unfold get_video_data
    rw [if_neg hne, h]
    simp only [henv]

/-- Environment for the C4 witnesses: every transcript attempt fails,
with a distinct message for the 'en' attempt. -/
def envC4 : Env :=
  { oembed := fun _ => .error "network down"
    get_transcript := fun _ langs =>
      if langs = some ["en"] then .error "errB" else .error "errA"
    list_transcripts := fun _ => .error "errL" }

/-- C4 counterexample: when both timestamp attempts fail (the
requested-or-default attempt with "errA", the forced-'en' attempt with
"errB"), the 500 detail carries only the second attempt's text and does
not contain the first attempt's "errA" — contradicting the claim that
the detail contains the individual error text of every attempt made. -/
theorem c4_counterexample :
    get_video_timestamps envC4 "https://youtu.be/dQw4w9WgXcQ" none =
      .error ⟨500, "Error generating timestamps: errB"⟩ ∧
    hasSub "errA".data "Error generating timestamps: errB".data = false := by
  constructor
  · rfl
  · rfl

/-- C4 amended: on total failure the caption fetch does fail with 404 and
a detail that concatenates every attempt's error text, but the timestamp
fetch fails with a 500 whose detail carries only the final forced-'en'
attempt's error text; the first attempt's error is logged, not included. -/
theorem c4_amended_failure_details :
    (∀ (env : Env) (url : String) (langs : Option (List String)) (id e1 e2 e3 : String),
      ¬ url = "" → wrapIdExtraction url = .ok id →
      env.get_transcript id (langArg langs) = .error e1 →
      env.list_transcripts id = .error e2 →
      env.get_transcript id (some ["en"]) = .error e3 →
      get_video_captions env url langs =
        .error ⟨404, "No captions found for this video. Errors: Failed to get captions: " ++
          e1 ++ "; Failed to list available languages: " ++ e2 ++
          "; Failed to get captions with 'en' language: " ++ e3⟩) ∧
    (∀ (env : Env) (url : String) (langs : Option (List String)) (id e1 e2 : String),
      ¬ url = "" → wrapIdExtraction url = .ok id →
      env.get_transcript id (langArg langs) = .error e1 →
      env.get_transcript id (some ["en"]) = .error e2 →
      get_video_timestamps env url langs =
        .error ⟨500, "Error generating timestamps: " ++ e2⟩) := by
  constructor
  · intro env url langs id e1 e2 e3 hne hid h1 h2 h3
    obtain ⟨vd, hvd⟩ := get_video_data_ok env url id hne hid
    have hca : captionAttempts env id langs =
        (none, ["Failed to get captions: " ++ e1,
                "Failed to list available languages: " ++ e2,
                "Failed to get captions with 'en' language: " ++ e3]) := by
      simp only [captionAttempts, h1, h2, h3]
    unfold get_video_captions
    rw [if_neg hne, hid]
    simp [hvd, hca, notFoundDetail, joinSemicolon, ← String.append_assoc]
    rw [String.append_assoc _ "; " "Failed to list available languages: ",
        String.append_assoc _ "; " "Failed to get captions with 'en' language: "]
    simp [← String.append_assoc]
  · intro env url langs id e1 e2 hne hid h1 h2
    unfold get_video_timestamps
    rw [if_neg hne, hid]
    simp only [h1, h2]

/-- Witness for the amended C4 at a concrete environment in which every
attempt fails. -/
theorem c4_amended_failure_details_witness :
    get_video_captions envC4 "https://youtu.be/dQw4w9WgXcQ" none =
      .error ⟨404, "No captions found for this video. Errors: Failed to get captions: " ++
        "errA" ++ "; Failed to list available languages: " ++ "errL" ++
        "; Failed to get captions with 'en' language: " ++ "errB"⟩ ∧
    get_video_timestamps envC4 "https://youtu.be/dQw4w9WgXcQ" none =
      .error ⟨500, "Error generating timestamps: " ++ "errB"⟩ :=
  ⟨c4_amended_failure_details.1 envC4 "https://youtu.be/dQw4w9WgXcQ" none "dQw4w9WgXcQ"
      "errA" "errL" "errB" (by decide) (by decide) (by decide) (by decide) (by decide),
   c4_amended_failure_details.2 envC4 "https://youtu.be/dQw4w9WgXcQ" none "dQw4w9WgXcQ"
      "errA" "errB" (by decide) (by decide) (by decide) (by decide)⟩

end YT

namespace YT

/-- C5: timestamp normalization.  The start offset of every cue is
truncated to an integer (identity on integer starts; on non-negative
starts, pyInt is the floor, so the value lies within one of the offset),
decomposed with divmod(n, 60) — for natural starts exactly n div 60 and
n mod 60 — and rendered as "{minutes}:{seconds:02d}": the seconds field
is always two characters for non-negative starts, the minutes field is
the unpadded quotient with no hour rollover, and a cue with start 3661
renders as "61:01".  The same rendering feeds both the captions records
and the timestamp lines. -/
theorem c5_timestamp_normalization :
    (∀ c : Cue, formatCue c =
      { text := c.text
        timestamp := toString (Int.fdiv (pyInt c.start) 60) ++ ":" ++
          pad2 (Int.fmod (pyInt c.start) 60)
        start := pyInt c.start, duration := c.duration }) ∧
    (∀ c : Cue, fmtTsLine c =
      toString (Int.fdiv (pyInt c.start) 60) ++ ":" ++
        pad2 (Int.fmod (pyInt c.start) 60) ++ " - " ++ c.text) ∧
    (∀ n : ℤ, pyInt (n : ℚ) = n) ∧
    (∀ m : ℕ, fmtTs (m : ℚ) = toString (m / 60) ++ ":" ++ pad2 ((m % 60 : ℕ) : ℤ)) ∧
    (∀ n : ℤ, 0 ≤ n → (pad2 (Int.fmod n 60)).length = 2) ∧
    (∀ q : ℚ, 0 ≤ q → ((pyInt q : ℚ) ≤ q ∧ q < (pyInt q : ℚ) + 1)) ∧
    fmtTs (3661 : ℚ) = "61:01" := by
  refine ⟨fun c => rfl, fun c => rfl, ?_, ?_, ?_, ?_, by decide⟩
  · intro n
    simp [pyInt]
  · intro m
    have hp : pyInt (m : ℚ) = (m : ℤ) := by simp [pyInt]
    show toString (Int.fdiv (pyInt (m : ℚ)) 60) ++ ":" ++ pad2 (Int.fmod (pyInt (m : ℚ)) 60) = _
    rw [hp, Int.fdiv_eq_ediv _ (by norm_num), Int.fmod_eq_emod _ (by norm_num),
      show ((m : ℤ) % 60) = ((m % 60 : ℕ) : ℤ) by omega,
      show ((m : ℤ) / 60) = ((m / 60 : ℕ) : ℤ) by omega]
    rfl
  · intro n hn
    have h0 : 0 ≤ Int.fmod n 60 := Int.fmod_nonneg hn (by norm_num)
    have h60 : Int.fmod n 60 < 60 := Int.fmod_lt_of_pos n (by norm_num)
    unfold pad2
    split
    · rename_i hlt
      have h10 : Int.fmod n 60 < 10 := hlt.2
      generalize hgen : Int.fmod n 60 = s at *
      interval_cases s <;> decide
    · rename_i hge
      push_neg at hge
      have h10 : 10 ≤ Int.fmod n 60 := hge h0
      generalize hgen : Int.fmod n 60 = s at *
      interval_cases s <;> decide
  · intro q hq
    have hnum : 0 ≤ q.num := Rat.num_nonneg.mpr hq
    have hfl : pyInt q = ⌊q⌋ := by
      rw [Rat.floor_def]
      exact Int.tdiv_eq_ediv hnum (by positivity)
    rw [hfl]
    exact ⟨Int.floor_le q, Int.lt_floor_add_one q⟩

/-- Witness for C5 at concrete inputs: a seconds field of width two for
start 3661, truncation bounds at start 12.5, and the 61:01 rendering. -/
theorem c5_timestamp_normalization_witness :
    (pad2 (Int.fmod 3661 60)).length = 2 ∧
    ((pyInt (mkRat 25 2) : ℚ) ≤ mkRat 25 2 ∧ mkRat 25 2 < (pyInt (mkRat 25 2) : ℚ) + 1) ∧
    fmtTs (3661 : ℚ) = "61:01" :=
  ⟨c5_timestamp_normalization.2.2.2.2.1 3661 (by decide),
   c5_timestamp_normalization.2.2.2.2.2.1 (mkRat 25 2) (by decide),
   c5_timestamp_normalization.2.2.2.2.2.2⟩

/-- C6: once a video id has been extracted from the URL, get_video_data
never propagates an upstream failure: on any oEmbed failure it returns
the degraded record with the synthesized title, the author "Unknown" and
the deterministic thumbnail URL — and in every case it returns a value. -/
theorem c6_metadata_degrades_never_fails (env : Env) (url id : String)
    (hne : ¬ url = "") (hid : wrapIdExtraction url = .ok id) :
    (∀ err, env.oembed (oembedFullUrl id) = .error err →
      get_video_data env url = .ok
        { title := some ("YouTube Video (" ++ id ++ ")")
          author_name := some "Unknown"
          thumbnail_url := some ("https://img.youtube.com/vi/" ++ id ++ "/0.jpg") }) ∧
    ∃ vd, get_video_data env url = .ok vd := by
  constructor
  · intro err herr
    unfold get_video_data
    rw [if_neg hne, hid]
    simp [herr, degradedData]
  · exact get_video_data_ok env url id hne hid

/-- Environment for the C6 witness: the oEmbed endpoint is unreachable. -/
def envC6 : Env :=
  { oembed := fun _ => .error "unreachable"
    get_transcript := fun _ _ => .error "none"
    list_transcripts := fun _ => .error "none" }

/-- Witness for C6: with an unreachable oEmbed endpoint the metadata
fetch still returns the degraded record. -/
theorem c6_metadata_degrades_never_fails_witness :
    get_video_data envC6 "https://youtu.be/dQw4w9WgXcQ" = .ok
      { title := some "YouTube Video (dQw4w9WgXcQ)"
        author_name := some "Unknown"
        thumbnail_url := some "https://img.youtube.com/vi/dQw4w9WgXcQ/0.jpg" } :=
  (c6_metadata_degrades_never_fails envC6 "https://youtu.be/dQw4w9WgXcQ" "dQw4w9WgXcQ"
    (by decide) (by decide)).1 "unreachable" (by decide)

/-- C8: the timestamp operation's chain has exactly the two states
requested-or-default and forced-'en' and no enumeration step — its result
depends on the environment only through get_transcript (in particular
never on list_transcripts or the oEmbed endpoint); a successful attempt
yields the "M:SS - caption text" strings, discarding the cues' start and
duration fields; and when both attempts fail the operation fails with
status 500. -/
theorem c8_timestamps_two_state_chain :
    (∀ (env1 env2 : Env) (url : String) (langs : Option (List String)),
      env1.get_transcript = env2.get_transcript →
      get_video_timestamps env1 url langs = get_video_timestamps env2 url langs) ∧
    (∀ (env : Env) (url : String) (langs : Option (List String)) (id : String) (cs : List Cue),
      ¬ url = "" → wrapIdExtraction url = .ok id →
      env.get_transcript id (langArg langs) = .ok cs →
      get_video_timestamps env url langs =
        .ok (cs.map (fun c => fmtTs c.start ++ " - " ++ c.text))) ∧
    (∀ (env : Env) (url : String) (langs : Option (List String)) (id e1 : String) (cs : List Cue),
      ¬ url = "" → wrapIdExtraction url = .ok id →
      env.get_transcript id (langArg langs) = .error e1 →
      env.get_transcript id (some ["en"]) = .ok cs →
      get_video_timestamps env url langs =
        .ok (cs.map (fun c => fmtTs c.start ++ " - " ++ c.text))) ∧
    (∀ (env : Env) (url : String) (langs : Option (List String)) (id e1 e2 : String),
      ¬ url = "" → wrapIdExtraction url = .ok id →
      env.get_transcript id (langArg langs) = .error e1 →
      env.get_transcript id (some ["en"]) = .error e2 →
      get_video_timestamps env url langs =
        .error ⟨500, "Error generating timestamps: " ++ e2⟩) := by
  refine ⟨?_, ?_, ?_, ?_⟩
  · intro env1 env2 url langs h
    unfold get_video_timestamps
    rw [h]
  · intro env url langs id cs hne hid h1
    unfold get_video_timestamps
    rw [if_neg hne, hid]
    simp [h1, fmtTsLine]
  · intro env url langs id e1 cs hne hid h1 h2
    unfold get_video_timestamps
    rw [if_neg hne, hid]
    simp [h1, h2, fmtTsLine]
  · intro env url langs id e1 e2 hne hid h1 h2
    unfold get_video_timestamps
    rw [if_neg hne, hid]
    simp [h1, h2]

/-- Environment for the C8 witness: the default request succeeds with one
cue, every language-restricted request fails. -/
def envC8 : Env :=
  { oembed := fun _ => .error "net"
    get_transcript := fun _ langs =>
      if langs = none then .ok [⟨"hi", 65, 2⟩] else .error "nope"
    list_transcripts := fun _ => .error "nolist" }

/-- Witness for C8: success formatting on the default request, and the
500 with the final attempt's message when both attempts fail. -/
theorem c8_timestamps_two_state_chain_witness :
    get_video_timestamps envC8 "https://youtu.be/dQw4w9WgXcQ" none = .ok ["1:05 - hi"] ∧
    get_video_timestamps envC8 "https://youtu.be/dQw4w9WgXcQ" (some ["fr"]) =
      .error ⟨500, "Error generating timestamps: nope"⟩ :=
  ⟨c8_timestamps_two_state_chain.2.1 envC8 "https://youtu.be/dQw4w9WgXcQ" none
      "dQw4w9WgXcQ" [⟨"hi", 65, 2⟩] (by decide) (by decide) (by decide),
   c8_timestamps_two_state_chain.2.2.2 envC8 "https://youtu.be/dQw4w9WgXcQ" (some ["fr"])
      "dQw4w9WgXcQ" "nope" "nope" (by decide) (by decide) (by decide) (by decide)⟩

end YT

namespace YT

/-! ## Toolkit for reasoning about the parsers on a concrete prefix
followed by an arbitrary identifier suffix -/

theorem splitOnFirst_none {p : Char → Bool} :
    ∀ {l : Chars}, (∀ c ∈ l, p c = false) → splitOnFirst p l = none := by
  intro l
  induction l with
  | nil => intro _; rfl
  | cons c cs ih =>
    intro h
    unfold splitOnFirst
    rw [if_neg, ih fun d hd => h d (List.mem_cons_of_mem _ hd)]
    · rfl
    · simp [h c (List.mem_cons_self c cs)]

theorem splitOnFirst_append_some {p : Char → Bool} :
    ∀ {a a1 a2 : Chars} (b : Chars), splitOnFirst p a = some (a1, a2) →
      splitOnFirst p (a ++ b) = some (a1, a2 ++ b) := by
  intro a
  induction a with
  | nil => intro a1 a2 b h; cases h
  | cons c cs ih =>
    intro a1 a2 b h
    rw [List.cons_append]
    simp only [splitOnFirst] at h ⊢
    by_cases hc : p c
    · rw [if_pos hc] at h ⊢
      cases h
      rfl
    · rw [if_neg hc] at h ⊢
      match hs : splitOnFirst p cs with
      | none => rw [hs] at h; cases h
      | some (b1, b2) =>
        rw [hs] at h
        cases h
        rw [ih b hs]
        rfl

theorem spanTo_append {p : Char → Bool} :
    ∀ {a a1 : Chars} {c : Char} {a2 : Chars} (b : Chars), spanTo p a = (a1, c :: a2) →
      spanTo p (a ++ b) = (a1, c :: a2 ++ b) := by
  intro a
  induction a with
  | nil => intro a1 c a2 b h; cases h
  | cons d ds ih =>
    intro a1 c a2 b h
    rw [List.cons_append]
    simp only [spanTo] at h ⊢
    by_cases hd : p d
    · rw [if_pos hd] at h ⊢
      cases h
      rfl
    · rw [if_neg hd] at h ⊢
      match hs : spanTo p ds with
      | (b1, b2) =>
        rw [hs] at h
        cases b2 with
        | nil => simp at h
        | cons e es =>
          simp only at h
          cases h
          rw [ih b hs]

theorem spRec_none : ∀ {l : Chars}, (∀ c ∈ l, c ≠ ';') → spRec l = none := by
  intro l
  induction l with
  | nil => intro _; rfl
  | cons c cs ih =>
    intro h
    unfold spRec
    rw [if_neg, ih fun d hd => h d (List.mem_cons_of_mem _ hd)]
    · rfl
    · simp [h c (List.mem_cons_self c cs)]

theorem splitParams_id {l : Chars} (h : ∀ c ∈ l, c ≠ ';') : splitParams l = (l, []) := by
  unfold splitParams
  rw [spRec_none h]

theorem pySplit_no_sep {sep : Char} :
    ∀ {l : Chars}, (∀ c ∈ l, c ≠ sep) → pySplit sep l = [l] := by
  intro l
  induction l with
  | nil => intro _; rfl
  | cons c cs ih =>
    intro h
    unfold pySplit
    rw [if_neg (h c (List.mem_cons_self c cs)),
      ih fun d hd => h d (List.mem_cons_of_mem _ hd)]
    rfl

theorem pctDecodeF_id : ∀ (fuel : Nat) (l : Chars), (∀ c ∈ l, c ≠ '%') →
    pctDecodeF fuel l = l := by
  intro fuel
  induction fuel with
  | zero =>
    intro l _
    cases l <;> rfl
  | succ n ih =>
    intro l h
    cases l with
    | nil => rfl
    | cons c rest =>
      show pctDecodeF (n + 1) (c :: rest) = c :: rest
      unfold pctDecodeF
      rw [if_neg (h c (List.mem_cons_self c rest)),
        ih rest fun d hd => h d (List.mem_cons_of_mem _ hd)]

theorem unquotePlus_id {l : Chars} (h : ∀ c ∈ l, c ≠ '+' ∧ c ≠ '%') :
    unquotePlus l = l := by
  unfold unquotePlus pctDecode
  have hmap : l.map (fun c => if c = '+' then ' ' else c) = l := by
    induction l with
    | nil => rfl
    | cons c cs ih =>
      rw [List.map_cons, if_neg (h c (List.mem_cons_self c cs)).1,
        ih fun d hd => h d (List.mem_cons_of_mem _ hd)]
  rw [hmap]
  exact pctDecodeF_id _ l fun c hc => (h c hc).2

/-- The YouTube identifier alphabet: letters, digits, "-", "_". -/
def isYTAlpha (c : Char) : Bool :=
  c.isAlphanum || c = '-' || c = '_'

theorem ytAlpha_not {c : Char} (h : isYTAlpha c = true) :
    c ≠ ':' ∧ c ≠ '/' ∧ c ≠ '?' ∧ c ≠ '#' ∧ c ≠ ';' ∧ c ≠ '&' ∧ c ≠ '=' ∧
    c ≠ '%' ∧ c ≠ '+' := by
  refine ⟨?_, ?_, ?_, ?_, ?_, ?_, ?_, ?_, ?_⟩ <;> (rintro rfl; revert h; decide)

end YT

namespace YT

theorem splitHash_id {l : Chars} (h : ∀ c ∈ l, c ≠ '#') : splitHash l = (l, []) := by
  unfold splitHash
  rw [splitOnFirst_none (by intro c hc; simp [h c hc])]

theorem splitQ_id {l : Chars} (h : ∀ c ∈ l, c ≠ '?') : splitQ l = (l, []) := by
  unfold splitQ
  rw [splitOnFirst_none (by intro c hc; simp [h c hc])]

/-- Parse result of a watch URL whose query value contains no special
characters: hostname www.youtube.com, path /watch, query v=X. -/
theorem parse_watch {X : Chars} (hX : ∀ c ∈ X, isYTAlpha c = true) :
    pyUrlparse ("https://www.youtube.com/watch?v=".data ++ X) =
      .ok ⟨some "www.youtube.com".data, "/watch".data, 'v' :: '=' :: X⟩ := by
  have hhash : splitHash ("/watch?v=".data ++ X) = ("/watch?v=".data ++ X, []) :=
    splitHash_id (by
      intro c hc
      rcases List.mem_append.mp hc with hc | hc
      · exact (by decide : ∀ c ∈ "/watch?v=".data, c ≠ '#') c hc
      · exact (ytAlpha_not (hX c hc)).2.2.2.1)
  have hq : splitQ ("/watch?v=".data ++ X) = ("/watch".data, "v=".data ++ X) := by
    unfold splitQ
    rw [@splitOnFirst_append_some (fun c => decide (c = '?')) "/watch?v=".data
      "/watch".data "v=".data X (by decide)]
  calc pyUrlparse ("https://www.youtube.com/watch?v=".data ++ X)
      = .ok (mkParts (some "www.youtube.com".data) ("/watch?v=".data ++ X)) := rfl
    _ = .ok ⟨some "www.youtube.com".data, "/watch".data, 'v' :: '=' :: X⟩ := by
        simp only [mkParts, hhash, hq]
        rfl

/-- Parse result of a youtu.be URL with a clean path: hostname youtu.be,
path /X, empty query. -/
theorem parse_be {X : Chars} (hX : ∀ c ∈ X, isYTAlpha c = true) :
    pyUrlparse ("https://youtu.be/".data ++ X) =
      .ok ⟨some "youtu.be".data, '/' :: X, []⟩ := by
  have hne : ∀ c ∈ ('/' :: X), c ≠ '#' ∧ c ≠ '?' ∧ c ≠ ';' := by
    intro c hc
    rcases List.mem_cons.mp hc with rfl | hc
    · decide
    · have h := ytAlpha_not (hX c hc)
      exact ⟨h.2.2.2.1, h.2.2.1, h.2.2.2.2.1⟩
  have hhash : splitHash ('/' :: X) = ('/' :: X, []) :=
    splitHash_id fun c hc => (hne c hc).1
  have hq : splitQ ('/' :: X) = ('/' :: X, []) :=
    splitQ_id fun c hc => (hne c hc).2.1
  have hp : splitParams ('/' :: X) = ('/' :: X, []) :=
    splitParams_id fun c hc => (hne c hc).2.2
  calc pyUrlparse ("https://youtu.be/".data ++ X)
      = .ok (mkParts (some "youtu.be".data) ('/' :: X)) := rfl
    _ = .ok ⟨some "youtu.be".data, '/' :: X, []⟩ := by
        simp only [mkParts, hhash, hq, hp]
        rfl

/-- Parse result of an embed URL with a clean final segment: hostname
www.youtube.com, path /embed/X, empty query. -/
theorem parse_embed {X : Chars} (hX : ∀ c ∈ X, isYTAlpha c = true) :
    pyUrlparse ("https://www.youtube.com/embed/".data ++ X) =
      .ok ⟨some "www.youtube.com".data, "/embed/".data ++ X, []⟩ := by
  have hne : ∀ c ∈ ("/embed/".data ++ X), c ≠ '#' ∧ c ≠ '?' ∧ c ≠ ';' := by
    intro c hc
    rcases List.mem_append.mp hc with hc | hc
    · exact (by decide : ∀ c ∈ "/embed/".data, c ≠ '#' ∧ c ≠ '?' ∧ c ≠ ';') c hc
    · have h := ytAlpha_not (hX c hc)
      exact ⟨h.2.2.2.1, h.2.2.1, h.2.2.2.2.1⟩
  have hhash : splitHash ("/embed/".data ++ X) = ("/embed/".data ++ X, []) :=
    splitHash_id fun c hc => (hne c hc).1
  have hq : splitQ ("/embed/".data ++ X) = ("/embed/".data ++ X, []) :=
    splitQ_id fun c hc => (hne c hc).2.1
  have hp : splitParams ("/embed/".data ++ X) = ("/embed/".data ++ X, []) :=
    splitParams_id fun c hc => (hne c hc).2.2
  calc pyUrlparse ("https://www.youtube.com/embed/".data ++ X)
      = .ok (mkParts (some "www.youtube.com".data) ("/embed/".data ++ X)) := rfl
    _ = .ok ⟨some "www.youtube.com".data, "/embed/".data ++ X, []⟩ := by
        simp only [mkParts, hhash, hq, hp]
        rfl

/-- The query lookup on "v=X" returns X when X is non-empty and free of
separators and escapes. -/
theorem getV_id_value {X : Chars} (hne : X ≠ []) (hX : ∀ c ∈ X, isYTAlpha c = true) :
    getV ('v' :: '=' :: X) = some X := by
  have hsplit : pySplit '&' ('v' :: '=' :: X) = ['v' :: '=' :: X] :=
    pySplit_no_sep (by
      intro c hc
      rcases List.mem_cons.mp hc with rfl | hc
      · decide
      rcases List.mem_cons.mp hc with rfl | hc
      · decide
      · exact (ytAlpha_not (hX c hc)).2.2.2.2.2.1)
  have hpair : qsPair ('v' :: '=' :: X) = some (['v'], X) := by
    unfold qsPair
    rw [if_neg (by simp)]
    show (match some (['v'], X) with
          | none => none
          | some (n, v) => if v = [] then none
            else some (unquotePlus n, unquotePlus v)) = some (['v'], X)
    simp only [if_neg hne]
    rw [show unquotePlus ['v'] = ['v'] from rfl,
      unquotePlus_id (by
        intro c hc
        have h := ytAlpha_not (hX c hc)
        exact ⟨h.2.2.2.2.2.2.2.2, h.2.2.2.2.2.2.2.1⟩)]
  unfold getV parseQsl
  rw [hsplit]
  simp only [List.filterMap, hpair]
  rfl

/-- C3: for every 11-character identifier X over YouTube's identifier
alphabet, each of the three canonical URL shapes extracts exactly X. -/
theorem c3_canonical_urls_extract_id (X : String) (hlen : X.length = 11)
    (hX : ∀ c ∈ X.data, isYTAlpha c = true) :
    get_youtube_video_id ("https://www.youtube.com/watch?v=" ++ X) = some X ∧
    get_youtube_video_id ("https://youtu.be/" ++ X) = some X ∧
    get_youtube_video_id ("https://www.youtube.com/embed/" ++ X) = some X := by
  have hne : X.data ≠ [] := by
    intro h
    rw [show X.length = X.data.length from rfl, h] at hlen
    cases hlen
  refine ⟨?_, ?_, ?_⟩
  · unfold get_youtube_video_id getYoutubeVideoIdBody
    rw [show ("https://www.youtube.com/watch?v=" ++ X).data =
      "https://www.youtube.com/watch?v=".data ++ X.data from rfl, parse_watch hX]
    show (getV ('v' :: '=' :: X.data)).map String.mk = some X
    rw [getV_id_value hne hX]
    rfl
  · unfold get_youtube_video_id getYoutubeVideoIdBody
    rw [show ("https://youtu.be/" ++ X).data =
      "https://youtu.be/".data ++ X.data from rfl, parse_be hX]
    rfl
  · unfold get_youtube_video_id getYoutubeVideoIdBody
    rw [show ("https://www.youtube.com/embed/" ++ X).data =
      "https://www.youtube.com/embed/".data ++ X.data from rfl, parse_embed hX]
    have hps : pySplit '/' ("/embed/".data ++ X.data) = [[], "embed".data, X.data] := by
      have h1 : pySplit '/' X.data = [X.data] :=
        pySplit_no_sep fun c hc => (ytAlpha_not (hX c hc)).2.1
      show pySplit '/' ('/' :: 'e' :: 'm' :: 'b' :: 'e' :: 'd' :: '/' :: X.data) =
        [[], "embed".data, X.data]
      simp [pySplit, consHead, h1]
    have hidx : (pySplit '/' ('/' :: 'e' :: 'm' :: 'b' :: 'e' :: 'd' :: '/' :: X.data))[2]? =
        some X.data := by
      show (pySplit '/' ("/embed/".data ++ X.data))[2]? = some X.data
      rw [hps]
      rfl
    simp [hidx, leadsWith]

end YT

namespace YT

/-- Witness for C3 at the concrete identifier dQw4w9WgXcQ. -/
theorem c3_canonical_urls_extract_id_witness :
    ("dQw4w9WgXcQ" : String).length = 11 ∧
    get_youtube_video_id "https://www.youtube.com/watch?v=dQw4w9WgXcQ" = some "dQw4w9WgXcQ" ∧
    get_youtube_video_id "https://youtu.be/dQw4w9WgXcQ" = some "dQw4w9WgXcQ" ∧
    get_youtube_video_id "https://www.youtube.com/embed/dQw4w9WgXcQ" = some "dQw4w9WgXcQ" :=
  have h := c3_canonical_urls_extract_id "dQw4w9WgXcQ" (by decide) (by decide)
  ⟨by decide, h.1, h.2.1, h.2.2⟩

end YT
